import Mathlib

/-!
# Verification of the tooryst-site geocoding resolution engine

Shallow embedding of `src/latlong/geocode_json.py` and `src/latlong/find.py`.

Modelling conventions:
* HTTP transport (`http_get_json`, i.e. `session.get(...).json()`) is an oracle
  `Session` of response functions, one per endpoint; `Except Exc resp` models
  "the call either raised (network/timeout/parse) or produced parsed JSON".
* JSON dictionaries are modelled as structures holding exactly the fields the
  Python code reads.  `dict.get(k)` becomes an `Option` field; `dict[k]` on a
  possibly-missing key becomes a `match` whose `none` branch raises a KeyError
  (an `Exc`), mirroring Python's exception flow.
* JSON numbers (latitudes/longitudes) are modelled as `Int`: the code never
  computes with them, it only moves them around, so only presence matters.
* Python truthiness of optional strings (`if pid:`, `if not name`): `None`
  and `""` are falsy.
* Every HTTP call is recorded in a `Trace` (most recent event first) so that
  call-count properties of the spec can be stated.
* `resolve_attraction` threads a state `St` = city cache + trace;
  `find.py`'s pipeline has no cache and threads only the trace.
-/

set_option maxHeartbeats 1000000

/-- An exception message (Python `Exception` rendered as text). -/
abbrev Exc := String

/-- Python truthiness of an `Optional[str]`: `None` and `""` are falsy. -/
def pyTruthy : Option String → Bool
  | none => false
  | some s => s != ""

/-- Python `str.strip()`: drop whitespace from both ends.  (Defined over the
character list so that concrete instances evaluate inside the kernel.) -/
def pyStrip (s : String) : String :=
  ((s.data.dropWhile Char.isWhitespace).reverse.dropWhile Char.isWhitespace).reverse.asString

/-- Python `str.lower()`. -/
def pyLower (s : String) : String := (s.data.map Char.toLower).asString

/-- Embeds `clean_cell` (geocode_json.py lines 50-58; find.py lines 29-36 is the same
function, its missing `x is None` guard being subsumed by `pd.isna`):
`None`/NaN input becomes `none`; otherwise trim, and a string that is empty or
case-insensitively `"nan"` becomes `none`. -/
def clean_cell (x : Option String) : Option String :=
  match x with
  | none => none
  | some s =>
    let t := pyStrip s
    if t = "" ∨ pyLower t = "nan" then none else some t

/-- Does the string contain a decimal digit? (`re.search(r"\d", addr)`). -/
def hasDigit (s : String) : Bool := s.data.any (fun ch => ch.isDigit)

/-- Embeds `is_low_quality_address` (geocode_json.py lines 61-65; find.py lines 39-46,
identical).  `if not addr or not isinstance(addr, str)` — in this typed
embedding the input is `Option String`, so the `isinstance` arm is vacuous;
`not addr` is truthiness: `None` or `""`. -/
def is_low_quality_address (addr : Option String) : Bool :=
  match addr with
  | none => true
  | some a =>
    if a = "" then true
    else !(hasDigit a)

/-! ## Provider response shapes (the JSON fields the code reads) -/

/-- The object `result.geometry.location`: `loc.get("lat")`, `loc.get("lng")`. -/
structure LocObj where
  lat : Option Int
  lng : Option Int
  deriving DecidableEq, Repr

/-- One entry of `data["candidates"]`; `place_id := none` models a candidate
dictionary without a `"place_id"` key (so `cand["place_id"]` raises). -/
structure FPCand where
  place_id : Option String
  deriving DecidableEq, Repr

/-- Find-Place-From-Text response: `data.get("status")`,
`data.get("candidates")` (missing key ≡ empty list, both falsy). -/
structure FindPlaceResp where
  status : Option String
  candidates : List FPCand
  deriving DecidableEq, Repr

/-- The `data["result"]` object of a Place Details response. `geometry_location := none`
models a result where `res["geometry"]["location"]` raises a KeyError. -/
structure DetailsResult where
  geometry_location : Option LocObj
  formatted_address : Option String
  name : Option String
  deriving DecidableEq, Repr

/-- Place Details response: `data.get("status")`; `result := none` models a
body without a `"result"` key (`data["result"]` raises). -/
structure DetailsResp where
  status : Option String
  result : Option DetailsResult
  deriving DecidableEq, Repr

/-- One entry of a Text Search `results` array: `results[0].get("place_id")`. -/
structure TSResult where
  place_id : Option String
  deriving DecidableEq, Repr

/-- Text Search response. -/
structure TextSearchResp where
  status : Option String
  results : List TSResult
  deriving DecidableEq, Repr

/-- One entry of a Geocoding `results` array. -/
structure GeoResult where
  geometry_location : Option LocObj
  formatted_address : Option String
  deriving DecidableEq, Repr

/-- Geocoding response. -/
structure GeocodeResp where
  status : Option String
  results : List GeoResult
  deriving DecidableEq, Repr

/-- The query parameters the text-search adapter actually sends: `location`
and `radius` only when a location bias is given, `type` only when a category
is given (geocode_json.py lines 145-150). -/
structure TSParams where
  query : String
  location : Option String
  radius : Option Nat
  ptype : Option String
  deriving DecidableEq, Repr

/-- The provider transport: one response function per endpoint.  `Except.error`
is a transport/parse exception raised by `http_get_json`. -/
structure Session where
  findplace : String → Except Exc FindPlaceResp
  details : String → Except Exc DetailsResp
  textsearch : TSParams → Except Exc TextSearchResp
  geocode : String → Except Exc GeocodeResp

/-! ## Instrumentation: call trace, city cache, resolver state -/

/-- One HTTP call made by the program, with the argument that determines the
request. -/
inductive CallEv where
  | findplace (query : String)
  | details (place_id : String)
  | textsearch (params : TSParams)
  | geocode (address : String)
  deriving DecidableEq, Repr

/-- History of HTTP calls, most recent first. -/
abbrev Trace := List CallEv

/-- The `city_cache: Dict[str, Tuple[float, float]]`, as an association list
(most recent insertion first). -/
abbrev Cache := List (String × (Int × Int))

/-- State threaded through `resolve_attraction`: the shared city cache plus
the instrumentation trace. -/
structure St where
  cache : Cache
  trace : Trace
  deriving DecidableEq, Repr

/-- The common result-record shape of geocode_json.py. -/
structure ResolutionResult where
  latitude : Option Int
  longitude : Option Int
  formatted_address : Option String
  resolved_name : Option String
  status : String
  source : String
  place_id : Option String
  deriving DecidableEq, Repr

/-- Either the Python function returned a value, or an uncaught exception
escaped it; both carry the state at that moment. -/
inductive Outcome (α : Type) where
  | raised (e : Exc) (st : St)
  | ok (a : α) (st : St)
  deriving DecidableEq, Repr

/-- Did the call return normally (no exception escaped)? -/
def Outcome.isOk {α : Type} : Outcome α → Bool
  | .ok _ _ => true
  | .raised _ _ => false

/-- The state carried by an outcome. -/
def Outcome.state {α : Type} : Outcome α → St
  | .ok _ st => st
  | .raised _ st => st

/-! ## geocode_json.py adapters -/

/-- The `except Exception as e` record every adapter's `try` produces. -/
def excRecord (src : String) (e : Exc) : ResolutionResult :=
  { latitude := none, longitude := none, formatted_address := none,
    resolved_name := none, status := "Exception: " ++ e, source := src,
    place_id := none }

/-- Embeds `place_details` (geocode_json.py lines 76-96).  No try/except: a transport
error, a missing `"result"` key or a missing geometry raises to the caller.
Returns `some` success record when the upstream status is `"OK"`, else `none`. -/
def place_details (pid : String) (s : Session) (st : St) :
    Outcome (Option ResolutionResult) :=
  let st := { st with trace := CallEv.details pid :: st.trace }
  match s.details pid with
  | .error e => .raised e st
  | .ok data =>
    if data.status = some "OK" then
      match data.result with
      | none => .raised "KeyError: result" st
      | some res =>
        match res.geometry_location with
        | none => .raised "KeyError: geometry" st
        | some loc =>
          .ok (some { latitude := loc.lat, longitude := loc.lng,
                      formatted_address := some (res.formatted_address.getD ""),
                      resolved_name := some (res.name.getD ""),
                      status := "success", source := "places_details",
                      place_id := some pid }) st
    else .ok none st

/-- The fall-through record of `findplace_then_details`
(`not_found_in_places:<upstream status or UNKNOWN>`). -/
def notFoundRecord (s? : Option String) : ResolutionResult :=
  { latitude := none, longitude := none, formatted_address := none,
    resolved_name := none, status := "not_found_in_places:" ++ s?.getD "UNKNOWN",
    source := "places_findplace", place_id := none }

/-- Embeds `findplace_then_details` (geocode_json.py lines 99-133).  The whole body is
inside `try`, so transport errors and KeyErrors — including those raised by the
nested `place_details` — are caught and mapped to an `Exception: ...` record;
this adapter never raises. -/
def findplace_then_details (query : String) (s : Session) (st : St) :
    ResolutionResult × St :=
  let st := { st with trace := CallEv.findplace query :: st.trace }
  match s.findplace query with
  | .error e => (excRecord "places_findplace" e, st)
  | .ok data =>
    if data.status = some "OK" ∧ data.candidates ≠ [] then
      match data.candidates.head? with
      | some cand =>
        match cand.place_id with
        | none => (excRecord "places_findplace" "KeyError: place_id", st)
        | some pid =>
          match place_details pid s st with
          | .raised e st => (excRecord "places_findplace" e, st)
          | .ok none st => (notFoundRecord data.status, st)
          | .ok (some details) st =>
            if details.status = "success" then
              ({ details with source := "places_findplace" }, st)
            else (notFoundRecord data.status, st)
      | none => (notFoundRecord data.status, st)
    else (notFoundRecord data.status, st)

/-- Embeds `places_text_search_place_id` (geocode_json.py lines 136-155; find.py
lines 124-146 is the same function).  NOT wrapped in try/except: a transport
error propagates to the caller.  Builds the params dict conditionally, then
returns the first result's `place_id` on an `"OK"` status with a non-empty
results array, else `none`. -/
def places_text_search_place_id (query : String) (location : Option String)
    (radius : Nat) (place_type : Option String) (s : Session) (st : St) :
    Outcome (Option String) :=
  let params : TSParams :=
    { query := query,
      location := if pyTruthy location then location else none,
      radius := if pyTruthy location then some radius else none,
      ptype := if pyTruthy place_type then place_type else none }
  let st := { st with trace := CallEv.textsearch params :: st.trace }
  match s.textsearch params with
  | .error e => .raised e st
  | .ok data =>
    if data.status = some "OK" ∧ data.results ≠ [] then
      match data.results.head? with
      | some r => .ok r.place_id st
      | none => .ok none st
    else .ok none st

/-- The non-OK record of `geocode_fallback` (`Error: <status or UNKNOWN>`). -/
def geoErrorRecord (s? : Option String) : ResolutionResult :=
  { latitude := none, longitude := none, formatted_address := none,
    resolved_name := none, status := "Error: " ++ s?.getD "UNKNOWN",
    source := "geocoding_api", place_id := none }

/-- Embeds `geocode_fallback` (geocode_json.py lines 158-193).  Entire body inside
`try`: never raises.  On `"OK"` with results, reads
`results[0]["geometry"]["location"]` (a KeyError there is caught by the same
try) and `results[0].get("formatted_address")` (may be absent). -/
def geocode_fallback (query : String) (s : Session) (st : St) :
    ResolutionResult × St :=
  let st := { st with trace := CallEv.geocode query :: st.trace }
  match s.geocode query with
  | .error e => (excRecord "geocoding_api" e, st)
  | .ok data =>
    if data.status = some "OK" ∧ data.results ≠ [] then
      match data.results.head? with
      | some r =>
        match r.geometry_location with
        | none => (excRecord "geocoding_api" "KeyError: geometry", st)
        | some loc =>
          ({ latitude := loc.lat, longitude := loc.lng,
             formatted_address := r.formatted_address,
             resolved_name := none, status := "success",
             source := "geocoding_api", place_id := none }, st)
      | none => (geoErrorRecord data.status, st)
    else (geoErrorRecord data.status, st)

/-- Embeds `get_city_latlng` (geocode_json.py lines 199-208): cache hit returns the
memoized pair with no provider call; on a miss, geocode the bare city name and
cache the pair only when the geocode succeeded with both coordinates present. -/
def get_city_latlng (city : String) (s : Session) (st : St) :
    Option (Int × Int) × St :=
  match st.cache.lookup city with
  | some v => (some v, st)
  | none =>
    match geocode_fallback city s st with
    | (r, st) =>
      if r.status = "success" then
        match r.latitude, r.longitude with
        | some la, some lo =>
          (some (la, lo), { st with cache := (city, (la, lo)) :: st.cache })
        | _, _ => (none, st)
      else (none, st)

/-- The `skipped-empty` record of `resolve_attraction`. -/
def skippedRecord : ResolutionResult :=
  { latitude := none, longitude := none, formatted_address := none,
    resolved_name := none, status := "skipped-empty", source := "none",
    place_id := none }

/-- The query string `", ".join([v for v in [name, city] if v])`. -/
def joinQuery (name city : Option String) : String :=
  String.intercalate ", " (([name, city].filterMap id).filter (fun v => v != ""))

/-- The constant `CITY_TEXTSEARCH_RADIUS_M` (geocode_json.py line 39). -/
def CITY_TEXTSEARCH_RADIUS_M : Nat := 50000

/-- The constant `PLACES_TYPE` (geocode_json.py line 40). -/
def PLACES_TYPE : String := "tourist_attraction"

/-- The inline tier-2 city block of `resolve_attraction` (geocode_json.py
lines 234-239): `city_loc = None; if city: latlng = get_city_latlng(...);
if latlng: city_loc = f"{latlng[0]},{latlng[1]}"`. -/
def city_location_step (city : Option String) (s : Session) (st : St) :
    Option String × St :=
  match city with
  | some cty =>
    if cty != "" then
      match get_city_latlng cty s st with
      | (some (la, lo), st) => (some (toString la ++ "," ++ toString lo), st)
      | (none, st) => (none, st)
    else (none, st)
  | none => (none, st)

/-- Embeds `resolve_attraction` (geocode_json.py lines 211-260): normalize, skip when
both fields are empty, tier 1 (find place), acceptance test, tier-2 city bias
then text search then details with low-quality tagging, tier-3 geocoding
fallback. -/
def resolve_attraction (attraction_name city_name : Option String)
    (s : Session) (st : St) : Outcome ResolutionResult :=
  let name := clean_cell attraction_name
  let city := clean_cell city_name
  if pyTruthy name = false ∧ pyTruthy city = false then
    .ok skippedRecord st
  else
    let query := joinQuery name city
    match findplace_then_details query s st with
    | (r1, st) =>
      if r1.status = "success" ∧ is_low_quality_address r1.formatted_address = false then
        .ok r1 st
      else
        match city_location_step city s st with
        | (city_loc, st) =>
          match places_text_search_place_id query city_loc CITY_TEXTSEARCH_RADIUS_M
              (some PLACES_TYPE) s st with
          | .raised e st => .raised e st
          | .ok pid st =>
            match pid with
            | some p =>
              if p != "" then
                match place_details p s st with
                | .raised e st => .raised e st
                | .ok d st =>
                  match d with
                  | some dd =>
                    if dd.status = "success" then
                      if is_low_quality_address dd.formatted_address then
                        .ok { dd with source := "places_textsearch_low_quality" } st
                      else .ok { dd with source := "places_textsearch" } st
                    else
                      match geocode_fallback query s st with
                      | (r, st) => .ok r st
                  | none =>
                    match geocode_fallback query s st with
                    | (r, st) => .ok r st
              else
                match geocode_fallback query s st with
                | (r, st) => .ok r st
            | none =>
              match geocode_fallback query s st with
              | (r, st) => .ok r st

/-! ## Trace accounting -/

/-- Is the event a text-search HTTP call? -/
def isTextsearchEv : CallEv → Bool
  | CallEv.textsearch _ => true
  | _ => false

/-- Is the event a geocoding HTTP call? -/
def isGeocodeEv : CallEv → Bool
  | CallEv.geocode _ => true
  | _ => false

/-- Number of text-search calls in a trace. -/
def textsearchCalls (tr : Trace) : Nat := tr.countP isTextsearchEv

/-- Number of geocoding calls in a trace. -/
def geocodeCalls (tr : Trace) : Nat := tr.countP isGeocodeEv

/-- Number of geocoding calls in a trace whose address argument is exactly
`address` (used to count city-centroid lookups for one city). -/
def geocodeCallsFor (address : String) (tr : Trace) : Nat :=
  tr.countP (fun e => decide (e = CallEv.geocode address))

/-! ## find.py: the parallel pipeline (`get_venue_location`), which has NO
city cache — its functions thread only the call trace. -/

namespace Find

/-- The result-record shape of find.py (keys `venue_name`, no `place_id`). -/
structure FResult where
  latitude : Option Int
  longitude : Option Int
  formatted_address : Option String
  venue_name : Option String
  status : String
  source : String
  deriving DecidableEq, Repr

/-- Normal return or escaped exception, carrying the call trace. -/
inductive FOutcome (α : Type) where
  | raised (e : Exc) (tr : Trace)
  | ok (a : α) (tr : Trace)
  deriving DecidableEq, Repr

/-- Did the call return normally (no exception escaped)? -/
def FOutcome.isOk {α : Type} : FOutcome α → Bool
  | .ok _ _ => true
  | .raised _ _ => false

/-- The `except Exception as e` record of find.py's adapters. -/
def fExcRecord (src : String) (e : Exc) : FResult :=
  { latitude := none, longitude := none, formatted_address := none,
    venue_name := none, status := "Exception: " ++ e, source := src }

/-- find.py `place_details` (lines 98-121): same logic as geocode_json's, but
the record carries `venue_name` and no `place_id`.  No try/except. -/
def place_details (pid : String) (s : Session) (tr : Trace) :
    FOutcome (Option FResult) :=
  let tr := CallEv.details pid :: tr
  match s.details pid with
  | .error e => .raised e tr
  | .ok data =>
    if data.status = some "OK" then
      match data.result with
      | none => .raised "KeyError: result" tr
      | some res =>
        match res.geometry_location with
        | none => .raised "KeyError: geometry" tr
        | some loc =>
          .ok (some { latitude := loc.lat, longitude := loc.lng,
                      formatted_address := some (res.formatted_address.getD ""),
                      venue_name := some (res.name.getD ""),
                      status := "success", source := "places_details" }) tr
    else .ok none tr

/-- find.py's not-found record for the find-place tier. -/
def fNotFoundRecord (s? : Option String) : FResult :=
  { latitude := none, longitude := none, formatted_address := none,
    venue_name := none, status := "not_found_in_places:" ++ s?.getD "UNKNOWN",
    source := "places_findplace" }

/-- Embeds `find_venue_with_places_findplace` (find.py lines 58-95): whole body in
`try`, so it never raises. -/
def find_venue_with_places_findplace (query : String) (s : Session)
    (tr : Trace) : FResult × Trace :=
  let tr := CallEv.findplace query :: tr
  match s.findplace query with
  | .error e => (fExcRecord "places_findplace" e, tr)
  | .ok data =>
    if data.status = some "OK" ∧ data.candidates ≠ [] then
      match data.candidates.head? with
      | some cand =>
        match cand.place_id with
        | none => (fExcRecord "places_findplace" "KeyError: place_id", tr)
        | some pid =>
          match place_details pid s tr with
          | .raised e tr => (fExcRecord "places_findplace" e, tr)
          | .ok none tr => (fNotFoundRecord data.status, tr)
          | .ok (some details) tr =>
            if details.status = "success" then
              ({ details with source := "places_findplace" }, tr)
            else (fNotFoundRecord data.status, tr)
      | none => (fNotFoundRecord data.status, tr)
    else (fNotFoundRecord data.status, tr)

/-- find.py `places_text_search_place_id` (lines 124-146), identical logic to
geocode_json's; no try/except. -/
def places_text_search_place_id (query : String) (location : Option String)
    (radius : Nat) (place_type : Option String) (s : Session) (tr : Trace) :
    FOutcome (Option String) :=
  let params : TSParams :=
    { query := query,
      location := if pyTruthy location then location else none,
      radius := if pyTruthy location then some radius else none,
      ptype := if pyTruthy place_type then place_type else none }
  let tr := CallEv.textsearch params :: tr
  match s.textsearch params with
  | .error e => .raised e tr
  | .ok data =>
    if data.status = some "OK" ∧ data.results ≠ [] then
      match data.results.head? with
      | some r => .ok r.place_id tr
      | none => .ok none tr
    else .ok none tr

/-- find.py's geocoding error record. -/
def fGeoErrorRecord (s? : Option String) : FResult :=
  { latitude := none, longitude := none, formatted_address := none,
    venue_name := none, status := "Error: " ++ s?.getD "UNKNOWN",
    source := "geocoding_api" }

/-- Embeds `geocode_venue` (find.py lines 149-185): whole body in `try`, never
raises. -/
def geocode_venue (query : String) (s : Session) (tr : Trace) :
    FResult × Trace :=
  let tr := CallEv.geocode query :: tr
  match s.geocode query with
  | .error e => (fExcRecord "geocoding_api" e, tr)
  | .ok data =>
    if data.status = some "OK" ∧ data.results ≠ [] then
      match data.results.head? with
      | some r =>
        match r.geometry_location with
        | none => (fExcRecord "geocoding_api" "KeyError: geometry", tr)
        | some loc =>
          ({ latitude := loc.lat, longitude := loc.lng,
             formatted_address := r.formatted_address,
             venue_name := none, status := "success",
             source := "geocoding_api" }, tr)
      | none => (fGeoErrorRecord data.status, tr)
    else (fGeoErrorRecord data.status, tr)

/-- find.py's skipped record. -/
def fSkippedRecord : FResult :=
  { latitude := none, longitude := none, formatted_address := none,
    venue_name := none, status := "skipped-empty", source := "none" }

/-- Embeds `get_venue_location` (find.py lines 188-243).  Tier 2's city bias has NO
cache: when a city is present, `geocode_venue(city_clean)` is called afresh on
every invocation (lines 217-222). -/
def get_venue_location (venue_name city : Option String) (s : Session)
    (tr : Trace) : FOutcome FResult :=
  let venue_name_clean := clean_cell venue_name
  let city_clean := clean_cell city
  if pyTruthy venue_name_clean = false ∧ pyTruthy city_clean = false then
    .ok fSkippedRecord tr
  else
    let query := joinQuery venue_name_clean city_clean
    match find_venue_with_places_findplace query s tr with
    | (result, tr) =>
      if result.status = "success" ∧
          is_low_quality_address result.formatted_address = false then
        .ok result tr
      else
        match
          (match city_clean with
           | some cty =>
             if cty != "" then
               match geocode_venue cty s tr with
               | (c, tr) =>
                 if c.status = "success" then
                   match c.latitude, c.longitude with
                   | some la, some lo =>
                     (some (toString la ++ "," ++ toString lo), tr)
                   | _, _ => (none, tr)
                 else (none, tr)
             else (none, tr)
           | none => (none, tr) : Option String × Trace) with
        | (city_location, tr) =>
          match places_text_search_place_id query city_location 50000
              (some "tourist_attraction") s tr with
          | .raised e tr => .raised e tr
          | .ok pid tr =>
            match pid with
            | some p =>
              if p != "" then
                match place_details p s tr with
                | .raised e tr => .raised e tr
                | .ok d tr =>
                  match d with
                  | some dd =>
                    if dd.status = "success" ∧
                        is_low_quality_address dd.formatted_address = false then
                      .ok { dd with source := "places_textsearch" } tr
                    else if dd.status = "success" then
                      .ok { dd with source := "places_textsearch_low_quality" } tr
                    else
                      match geocode_venue query s tr with
                      | (r, tr) => .ok r tr
                  | none =>
                    match geocode_venue query s tr with
                    | (r, tr) => .ok r tr
              else
                match geocode_venue query s tr with
                | (r, tr) => .ok r tr
            | none =>
              match geocode_venue query s tr with
              | (r, tr) => .ok r tr

end Find

/-! ## Concrete transports and records used to evaluate the theorems -/

/-- The empty starting state: empty city cache, no calls made yet. -/
def st0 : St := { cache := [], trace := [] }

/-- A transport on which every HTTP call raises. -/
def sBad : Session :=
  { findplace := fun _ => .error "ConnectionError",
    details := fun _ => .error "ConnectionError",
    textsearch := fun _ => .error "ConnectionError",
    geocode := fun _ => .error "ConnectionError" }

/-- A details `location` object carrying no `lat`/`lng` keys. -/
def c2loc : LocObj := { lat := none, lng := none }

/-- A details result whose geometry is present but whose location omits both
coordinates. -/
def c2res : DetailsResult :=
  { geometry_location := some c2loc, formatted_address := some "Somewhere 1",
    name := some "V" }

/-- An upstream-OK details response without coordinates. -/
def c2resp : DetailsResp := { status := some "OK", result := some c2res }

/-- A transport whose details endpoint answers OK but omits the coordinates. -/
def sC2 : Session :=
  { findplace := fun _ => .error "x",
    details := fun _ => .ok c2resp,
    textsearch := fun _ => .error "x",
    geocode := fun _ => .error "x" }

/-- The record `place_details` builds from `sC2`'s answer. -/
def c2rec : ResolutionResult :=
  { latitude := none, longitude := none, formatted_address := some "Somewhere 1",
    resolved_name := some "V", status := "success", source := "places_details",
    place_id := some "p" }

/-- Coordinates of the mock city centroid / venue. -/
def amsLoc : LocObj := { lat := some 52, lng := some 4 }

/-- Street-level details result for the mock venue. -/
def c3res : DetailsResult :=
  { geometry_location := some amsLoc,
    formatted_address := some "Museumstraat 1, Amsterdam",
    name := some "Rijksmuseum" }

/-- Locality-level geocoding result for the mock city. -/
def c3geo : GeoResult :=
  { geometry_location := some amsLoc,
    formatted_address := some "Amsterdam, Netherlands" }

/-- A transport where tier 1 finds nothing, the city geocodes fine, and the
biased text search resolves the venue at street level. -/
def sC3 : Session :=
  { findplace := fun _ => .ok { status := some "ZERO_RESULTS", candidates := [] },
    details := fun _ => .ok { status := some "OK", result := some c3res },
    textsearch := fun _ => .ok { status := some "OK", results := [{ place_id := some "P1" }] },
    geocode := fun _ => .ok { status := some "OK", results := [c3geo] } }

/-- The params `get_venue_location` sends to text search under `sC3`. -/
def c3params : TSParams :=
  { query := "Rijksmuseum, Amsterdam", location := some "52,4",
    radius := some 50000, ptype := some "tourist_attraction" }

/-- The trace of one `Find.get_venue_location` run under `sC3`. -/
def c3tr1 : Trace :=
  [CallEv.details "P1", CallEv.textsearch c3params, CallEv.geocode "Amsterdam",
   CallEv.findplace "Rijksmuseum, Amsterdam"]

/-- The find.py result record produced under `sC3`. -/
def c3result : Find.FResult :=
  { latitude := some 52, longitude := some 4,
    formatted_address := some "Museumstraat 1, Amsterdam",
    venue_name := some "Rijksmuseum", status := "success",
    source := "places_textsearch" }

/-- The state after one successful `get_city_latlng "Amsterdam"` under `sC3`. -/
def c3st1 : St :=
  { cache := [("Amsterdam", (52, 4))], trace := [CallEv.geocode "Amsterdam"] }

/-- A transport where tier 1 fully succeeds at street level (and every other
endpoint also answers, so no call can raise). -/
def sGood : Session :=
  { findplace := fun _ => .ok { status := some "OK", candidates := [{ place_id := some "P0" }] },
    details := fun _ => .ok { status := some "OK", result := some c3res },
    textsearch := fun _ => .ok { status := some "OK", results := [{ place_id := some "P1" }] },
    geocode := fun _ => .ok { status := some "OK", results := [c3geo] } }

/-- The tier-1 record `findplace_then_details` produces under `sGood`. -/
def goodRec : ResolutionResult :=
  { latitude := some 52, longitude := some 4,
    formatted_address := some "Museumstraat 1, Amsterdam",
    resolved_name := some "Rijksmuseum", status := "success",
    source := "places_findplace", place_id := some "P0" }

/-- A transport where both place tiers produce no candidate and geocoding
answers at locality level. -/
def sNone : Session :=
  { findplace := fun _ => .ok { status := some "ZERO_RESULTS", candidates := [] },
    details := fun _ => .ok { status := some "NOT_FOUND", result := none },
    textsearch := fun _ => .ok { status := some "ZERO_RESULTS", results := [] },
    geocode := fun _ => .ok { status := some "OK", results := [c3geo] } }

/-- A transport where the text search yields a candidate but the details fetch
reports a non-OK status (so `place_details` returns `none`). -/
def sC9 : Session :=
  { findplace := fun _ => .ok { status := some "ZERO_RESULTS", candidates := [] },
    details := fun _ => .ok { status := some "NOT_FOUND", result := none },
    textsearch := fun _ => .ok { status := some "OK", results := [{ place_id := some "P1" }] },
    geocode := fun _ => .ok { status := some "OK", results := [c3geo] } }

/-- The text-search params for the bare query `"Rijksmuseum"` with no bias. -/
def rijksParams : TSParams :=
  { query := "Rijksmuseum", location := none, radius := none,
    ptype := some "tourist_attraction" }

/-- State after tier 1 under `sC3` for the query `"Rijksmuseum"`. -/
def c5st1 : St := { cache := [], trace := [CallEv.findplace "Rijksmuseum"] }

/-- State after the text search under `sC3`. -/
def c5st3 : St :=
  { cache := [], trace := [CallEv.textsearch rijksParams, CallEv.findplace "Rijksmuseum"] }

/-- State after the tier-2 details fetch under `sC3`. -/
def c5st4 : St :=
  { cache := [],
    trace := [CallEv.details "P1", CallEv.textsearch rijksParams,
              CallEv.findplace "Rijksmuseum"] }

/-- The tier-2 details record under `sC3`. -/
def c5dd : ResolutionResult :=
  { latitude := some 52, longitude := some 4,
    formatted_address := some "Museumstraat 1, Amsterdam",
    resolved_name := some "Rijksmuseum", status := "success",
    source := "places_details", place_id := some "P1" }

/-- State after tier 1 under `sGood` for the query `"Rijksmuseum"`. -/
def gst1 : St :=
  { cache := [], trace := [CallEv.details "P0", CallEv.findplace "Rijksmuseum"] }

/-- The text-search params for the bare query `"Foo"` with no bias. -/
def fooParams : TSParams :=
  { query := "Foo", location := none, radius := none,
    ptype := some "tourist_attraction" }

/-- State after tier 1 under `sNone`/`sC9` for the query `"Foo"`. -/
def c6st1 : St := { cache := [], trace := [CallEv.findplace "Foo"] }

/-- State after the text search under `sNone`/`sC9`. -/
def c6st3 : St :=
  { cache := [], trace := [CallEv.textsearch fooParams, CallEv.findplace "Foo"] }

/-- State after the failed tier-2 details fetch under `sC9`. -/
def c9st4 : St :=
  { cache := [],
    trace := [CallEv.details "P1", CallEv.textsearch fooParams, CallEv.findplace "Foo"] }

/-- The params the text search sends for query `"X"` with no bias. -/
def c1params : TSParams :=
  { query := "X", location := none, radius := none,
    ptype := some "tourist_attraction" }

/-- The state at which `resolve_attraction` raises under `sBad`. -/
def c1st : St :=
  { cache := [], trace := [CallEv.textsearch c1params, CallEv.findplace "X"] }

/-! ## Session well-formedness assumptions used by amended claims -/

/-- The text-search transport never raises. -/
def TextsearchTotal (s : Session) : Prop :=
  ∀ p : TSParams, ∃ d, s.textsearch p = Except.ok d

/-- The details transport never raises, and an OK details body always carries
a `result` with a geometry location (so `place_details` cannot raise a
KeyError either). -/
def DetailsNoRaise (s : Session) : Prop :=
  ∀ pid, ∃ d, s.details pid = Except.ok d ∧
    (d.status = some "OK" → ∃ res, d.result = some res ∧
      ∃ loc, res.geometry_location = some loc)

/-- Every OK details or geocode response carries numeric coordinates for the
entry the code reads (the well-formedness the provider contract promises). -/
def WFSession (s : Session) : Prop :=
  (∀ pid data, s.details pid = Except.ok data → data.status = some "OK" →
    ∃ res, data.result = some res ∧ ∃ loc, res.geometry_location = some loc ∧
      loc.lat ≠ none ∧ loc.lng ≠ none) ∧
  (∀ q data, s.geocode q = Except.ok data → data.status = some "OK" →
    ∀ r, data.results.head? = some r →
      ∃ loc, r.geometry_location = some loc ∧ loc.lat ≠ none ∧ loc.lng ≠ none)

/-! ## Helper lemmas -/

/-- Shared helper: when both normalized fields are falsy, `resolve_attraction`
returns the skipped record with the state untouched. -/
theorem resolve_skip_of_empty (an cn : Option String) (s : Session) (st : St)
    (h1 : pyTruthy (clean_cell an) = false)
    (h2 : pyTruthy (clean_cell cn) = false) :
    resolve_attraction an cn s st = Outcome.ok skippedRecord st := by
  simp only [resolve_attraction]
  rw [if_pos ⟨h1, h2⟩]

/-! ## C7 -/

/-- C7: the quality classifier `is_low_quality_address` returns `true` exactly
when the address is absent or its text contains no decimal digit (the
"not a string" arm of the Python guard is vacuous in this typed embedding);
in particular it is `True` on `None` and `"Amsterdam, Netherlands"` and
`False` on `"123 Main St, Amsterdam, Netherlands"`. -/
theorem c7_low_quality_iff :
    (∀ addr : Option String,
      is_low_quality_address addr = true ↔
        (addr = none ∨ ∃ a, addr = some a ∧ hasDigit a = false)) ∧
    is_low_quality_address none = true ∧
    is_low_quality_address (some "Amsterdam, Netherlands") = true ∧
    is_low_quality_address (some "123 Main St, Amsterdam, Netherlands") = false := by
  refine ⟨?_, by decide, by decide, by decide⟩
  intro addr
  cases addr with
  | none => simp [is_low_quality_address]
  | some a =>
    simp only [is_low_quality_address, Option.some.injEq, reduceCtorEq, false_or]
    by_cases h : a = ""
    · subst h
      simp
      decide
    · rw [if_neg h]
      constructor
      · intro hb
        exact ⟨a, rfl, by simpa using hb⟩
      · rintro ⟨b, hb, hd⟩
        cases hb
        simpa using hd

/-- Witness for C7 at the three concrete inputs of the claim. -/
theorem c7_low_quality_iff_witness :
    is_low_quality_address (some "Amsterdam, Netherlands") = true ∧
    (some "Amsterdam, Netherlands" = none ∨
      ∃ a, some "Amsterdam, Netherlands" = some a ∧ hasDigit a = false) :=
  ⟨c7_low_quality_iff.2.2.1,
   (c7_low_quality_iff.1 (some "Amsterdam, Netherlands")).mp c7_low_quality_iff.2.2.1⟩

/-! ## C8 -/

/-- C8: when both fields normalize to absent, `resolve_attraction` returns
immediately with status `"skipped-empty"`, source `"none"`, both coordinates
absent, and the state (hence the call trace: no provider calls) unchanged. -/
theorem c8_skipped_empty (an cn : Option String) (s : Session) (st : St)
    (h1 : pyTruthy (clean_cell an) = false)
    (h2 : pyTruthy (clean_cell cn) = false) :
    resolve_attraction an cn s st = Outcome.ok skippedRecord st ∧
    skippedRecord.status = "skipped-empty" ∧ skippedRecord.source = "none" ∧
    skippedRecord.latitude = none ∧ skippedRecord.longitude = none :=
  ⟨resolve_skip_of_empty an cn s st h1 h2, rfl, rfl, rfl, rfl⟩

/-- Witness for C8: empty name, whitespace city, on the all-raising transport
(no call is even attempted). -/
theorem c8_skipped_empty_witness :
    resolve_attraction none (some "  ") sBad st0 = Outcome.ok skippedRecord st0 ∧
    skippedRecord.status = "skipped-empty" ∧ skippedRecord.source = "none" ∧
    skippedRecord.latitude = none ∧ skippedRecord.longitude = none :=
  c8_skipped_empty none (some "  ") sBad st0 (by decide) (by decide)

/-! ## C10 -/

/-- C10: `clean_cell` maps any string whose trimmed text is empty or
case-insensitively `"nan"` to absent; consequently a `"NaN"` venue name with
no city resolves as the empty-input case, with no provider call. -/
theorem c10_clean_cell_nan :
    (∀ x : String, (pyStrip x = "" ∨ pyLower (pyStrip x) = "nan") →
      clean_cell (some x) = none) ∧
    (∀ (s : Session) (st : St),
      resolve_attraction (some "NaN") none s st = Outcome.ok skippedRecord st) ∧
    (∀ (s : Session) (st : St),
      resolve_attraction (some " nan ") none s st = Outcome.ok skippedRecord st) := by
  refine ⟨?_, ?_, ?_⟩
  · intro x h
    simp only [clean_cell]
    rw [if_pos h]
  · intro s st
    exact resolve_skip_of_empty _ _ s st (by decide) (by decide)
  · intro s st
    exact resolve_skip_of_empty _ _ s st (by decide) (by decide)

/-- Witness for C10 at `"NaN"` and `" nan "` on a concrete transport. -/
theorem c10_clean_cell_nan_witness :
    clean_cell (some " nan ") = none ∧
    resolve_attraction (some "NaN") none sBad st0 = Outcome.ok skippedRecord st0 :=
  ⟨c10_clean_cell_nan.1 " nan " (Or.inr (by decide)),
   c10_clean_cell_nan.2.1 sBad st0⟩

/-! ## Tier-path helper lemmas -/

/-- Every branch of `place_details` returns the input state with exactly the
details call recorded. -/
theorem place_details_state (pid : String) (s : Session) (st : St) :
    (place_details pid s st).state =
      { st with trace := CallEv.details pid :: st.trace } := by
  unfold place_details
  repeat' split
  all_goals rfl

/-- The adapter `findplace_then_details` performs no text-search or geocoding call and
leaves the city cache untouched. -/
theorem findplace_preserves (q : String) (s : Session) (st : St) :
    (findplace_then_details q s st).2.cache = st.cache ∧
    textsearchCalls (findplace_then_details q s st).2.trace = textsearchCalls st.trace ∧
    geocodeCalls (findplace_then_details q s st).2.trace = geocodeCalls st.trace := by
  unfold findplace_then_details
  repeat' split
  all_goals try (refine ⟨?_, ?_, ?_⟩ <;>
    simp [textsearchCalls, geocodeCalls, List.countP_cons, isTextsearchEv, isGeocodeEv])
  all_goals (
    rename_i pid heq
    have hst := place_details_state pid s
      { cache := st.cache, trace := CallEv.findplace q :: st.trace }
    cases hpd : place_details pid s
        { cache := st.cache, trace := CallEv.findplace q :: st.trace } with
    | raised e st2 =>
      rw [hpd] at hst
      simp only [Outcome.state] at hst
      subst hst
      simp [textsearchCalls, geocodeCalls, List.countP_cons, isTextsearchEv, isGeocodeEv]
    | ok d st2 =>
      rw [hpd] at hst
      simp only [Outcome.state] at hst
      subst hst
      cases d with
      | none =>
        simp [textsearchCalls, geocodeCalls, List.countP_cons, isTextsearchEv, isGeocodeEv]
      | some details =>
        by_cases hds : details.status = "success" <;>
          simp [hds, textsearchCalls, geocodeCalls, List.countP_cons,
            isTextsearchEv, isGeocodeEv])

/-- Every record `geocode_fallback` returns carries `source = "geocoding_api"`. -/
theorem geocode_fallback_source (q : String) (s : Session) (st : St) :
    (geocode_fallback q s st).1.source = "geocoding_api" := by
  unfold geocode_fallback
  repeat' split
  all_goals rfl

/-! ## C4 -/

/-- C4: when tier 1 reports `"success"` and the classifier judges its address
NOT locality-level, `resolve_attraction` returns that tier-1 result
immediately, and the resulting state shows the cache untouched (no
city-centroid resolution), no text-search call and no geocoding call. -/
theorem c4_tier1_early_return (an cn : Option String) (s : Session) (st : St)
    (r1 : ResolutionResult) (st1 : St)
    (hne : ¬(pyTruthy (clean_cell an) = false ∧ pyTruthy (clean_cell cn) = false))
    (h1 : findplace_then_details (joinQuery (clean_cell an) (clean_cell cn)) s st = (r1, st1))
    (hs : r1.status = "success")
    (hq : is_low_quality_address r1.formatted_address = false) :
    resolve_attraction an cn s st = Outcome.ok r1 st1 ∧
    st1.cache = st.cache ∧
    textsearchCalls st1.trace = textsearchCalls st.trace ∧
    geocodeCalls st1.trace = geocodeCalls st.trace := by
  have hpres := findplace_preserves (joinQuery (clean_cell an) (clean_cell cn)) s st
  rw [h1] at hpres
  refine ⟨?_, hpres.1, hpres.2.1, hpres.2.2⟩
  simp only [resolve_attraction]
  rw [if_neg hne]
  simp only [h1]
  rw [if_pos ⟨hs, hq⟩]

/-- Witness for C4: under `sGood`, tier 1 succeeds at street level and the
engine returns it with an unchanged cache and no text-search/geocoding call. -/
theorem c4_tier1_early_return_witness :
    resolve_attraction (some "Rijksmuseum") none sGood st0 = Outcome.ok goodRec gst1 ∧
    gst1.cache = st0.cache ∧
    textsearchCalls gst1.trace = textsearchCalls st0.trace ∧
    geocodeCalls gst1.trace = geocodeCalls st0.trace :=
  c4_tier1_early_return (some "Rijksmuseum") none sGood st0 goodRec gst1
    (by decide) (by decide) (by decide) (by decide)

/-! ## C5 -/

/-- C5: when tier 2's text search yields a candidate identifier and the
details fetch reports `"success"`, `resolve_attraction` returns that details
record, tagged `"places_textsearch"` when its address is street-level and
`"places_textsearch_low_quality"` when locality-level — it is returned, not
discarded. -/
theorem c5_tier2_tagging (an cn : Option String) (s : Session)
    (st st1 st2 st3 st4 : St) (r1 dd : ResolutionResult)
    (cloc : Option String) (p : String)
    (hne : ¬(pyTruthy (clean_cell an) = false ∧ pyTruthy (clean_cell cn) = false))
    (h1 : findplace_then_details (joinQuery (clean_cell an) (clean_cell cn)) s st = (r1, st1))
    (hrej : ¬(r1.status = "success" ∧ is_low_quality_address r1.formatted_address = false))
    (hcl : city_location_step (clean_cell cn) s st1 = (cloc, st2))
    (hts : places_text_search_place_id (joinQuery (clean_cell an) (clean_cell cn)) cloc
        CITY_TEXTSEARCH_RADIUS_M (some PLACES_TYPE) s st2 = Outcome.ok (some p) st3)
    (hp : (p != "") = true)
    (hd : place_details p s st3 = Outcome.ok (some dd) st4)
    (hds : dd.status = "success") :
    resolve_attraction an cn s st =
      Outcome.ok
        (if is_low_quality_address dd.formatted_address then
          { dd with source := "places_textsearch_low_quality" }
        else { dd with source := "places_textsearch" }) st4 := by
  simp only [resolve_attraction]
  rw [if_neg hne]
  simp only [h1]
  rw [if_neg hrej]
  simp only [hcl, hts]
  rw [if_pos hp]
  simp only [hd]
  rw [if_pos hds]
  split <;> rfl

/-- Witness for C5: under `sC3`, tier 1 finds nothing, the text search yields
`"P1"`, details succeed at street level and the result is tagged
`"places_textsearch"`. -/
theorem c5_tier2_tagging_witness :
    resolve_attraction (some "Rijksmuseum") none sC3 st0 =
      Outcome.ok
        (if is_low_quality_address c5dd.formatted_address then
          { c5dd with source := "places_textsearch_low_quality" }
        else { c5dd with source := "places_textsearch" }) c5st4 :=
  c5_tier2_tagging (some "Rijksmuseum") none sC3 st0 c5st1 c5st1 c5st3 c5st4
    (notFoundRecord (some "ZERO_RESULTS")) c5dd none "P1"
    (by decide) (by decide) (by decide) (by decide) (by decide) (by decide)
    (by decide) (by decide)

/-! ## C6 -/

/-- C6: when tier 1 was not acceptable and the text search yields no
candidate identifier, `resolve_attraction` returns the geocoding-fallback
adapter's output on the original query verbatim, whose source is always
`"geocoding_api"` (on success and on failure alike). -/
theorem c6_geocode_fallback_verbatim (an cn : Option String) (s : Session)
    (st st1 st2 st3 : St) (r1 : ResolutionResult) (cloc : Option String)
    (hne : ¬(pyTruthy (clean_cell an) = false ∧ pyTruthy (clean_cell cn) = false))
    (h1 : findplace_then_details (joinQuery (clean_cell an) (clean_cell cn)) s st = (r1, st1))
    (hrej : ¬(r1.status = "success" ∧ is_low_quality_address r1.formatted_address = false))
    (hcl : city_location_step (clean_cell cn) s st1 = (cloc, st2))
    (hts : places_text_search_place_id (joinQuery (clean_cell an) (clean_cell cn)) cloc
        CITY_TEXTSEARCH_RADIUS_M (some PLACES_TYPE) s st2 = Outcome.ok none st3) :
    resolve_attraction an cn s st =
      Outcome.ok
        (geocode_fallback (joinQuery (clean_cell an) (clean_cell cn)) s st3).1
        (geocode_fallback (joinQuery (clean_cell an) (clean_cell cn)) s st3).2 ∧
    (geocode_fallback (joinQuery (clean_cell an) (clean_cell cn)) s st3).1.source =
      "geocoding_api" := by
  refine ⟨?_, geocode_fallback_source _ s st3⟩
  simp only [resolve_attraction]
  rw [if_neg hne]
  simp only [h1]
  rw [if_neg hrej]
  simp only [hcl, hts]

/-- Witness for C6: under `sNone`, both place tiers produce no candidate and
the engine returns the geocoding-fallback output verbatim. -/
theorem c6_geocode_fallback_verbatim_witness :
    resolve_attraction (some "Foo") none sNone st0 =
      Outcome.ok (geocode_fallback "Foo" sNone c6st3).1
        (geocode_fallback "Foo" sNone c6st3).2 ∧
    (geocode_fallback "Foo" sNone c6st3).1.source = "geocoding_api" :=
  c6_geocode_fallback_verbatim (some "Foo") none sNone st0 c6st1 c6st1 c6st3
    (notFoundRecord (some "ZERO_RESULTS")) none
    (by decide) (by decide) (by decide) (by decide) (by decide)

/-! ## C9 -/

/-- C9: when the text search yields a candidate identifier but the details
fetch does not report success (`place_details` returns `none` on a non-OK
upstream status), `resolve_attraction` falls through to the geocoding
fallback on the original query and returns its output, not a tier-2 failure
record. -/
theorem c9_tier2_details_failure_fallthrough (an cn : Option String)
    (s : Session) (st st1 st2 st3 st4 : St) (r1 : ResolutionResult)
    (cloc : Option String) (p : String)
    (hne : ¬(pyTruthy (clean_cell an) = false ∧ pyTruthy (clean_cell cn) = false))
    (h1 : findplace_then_details (joinQuery (clean_cell an) (clean_cell cn)) s st = (r1, st1))
    (hrej : ¬(r1.status = "success" ∧ is_low_quality_address r1.formatted_address = false))
    (hcl : city_location_step (clean_cell cn) s st1 = (cloc, st2))
    (hts : places_text_search_place_id (joinQuery (clean_cell an) (clean_cell cn)) cloc
        CITY_TEXTSEARCH_RADIUS_M (some PLACES_TYPE) s st2 = Outcome.ok (some p) st3)
    (hp : (p != "") = true)
    (hd : place_details p s st3 = Outcome.ok none st4) :
    resolve_attraction an cn s st =
      Outcome.ok
        (geocode_fallback (joinQuery (clean_cell an) (clean_cell cn)) s st4).1
        (geocode_fallback (joinQuery (clean_cell an) (clean_cell cn)) s st4).2 := by
  simp only [resolve_attraction]
  rw [if_neg hne]
  simp only [h1]
  rw [if_neg hrej]
  simp only [hcl, hts]
  rw [if_pos hp]
  simp only [hd]

/-- Witness for C9: under `sC9`, the text search yields `"P1"` but details
report `NOT_FOUND`, and the engine returns the geocoding-fallback output. -/
theorem c9_tier2_details_failure_fallthrough_witness :
    resolve_attraction (some "Foo") none sC9 st0 =
      Outcome.ok (geocode_fallback "Foo" sC9 c9st4).1
        (geocode_fallback "Foo" sC9 c9st4).2 :=
  c9_tier2_details_failure_fallthrough (some "Foo") none sC9 st0 c6st1 c6st1
    c6st3 c9st4 (notFoundRecord (some "ZERO_RESULTS")) none "P1"
    (by decide) (by decide) (by decide) (by decide) (by decide) (by decide)
    (by decide)

/-! ## Status-string disequalities and coordinate lemmas -/

/-- A string starting with a character other than `'s'` never equals
`"success"`, whatever is appended after it. -/
theorem ne_success_of_head (p y : String) (c : Char) (rest : List Char)
    (hp : p.data = c :: rest) (hc : c ≠ 's') : p ++ y ≠ "success" := by
  intro h
  have hd := congrArg String.data h
  rw [String.data_append, hp] at hd
  have hs : "success".data = 's' :: "uccess".data := by decide
  rw [hs] at hd
  simp only [List.cons_append, List.cons.injEq] at hd
  exact hc hd.1

/-- A status `"Exception: " ++ e` is never `"success"`. -/
theorem exception_status_ne (e : String) : "Exception: " ++ e ≠ "success" :=
  ne_success_of_head "Exception: " e 'E' "xception: ".data (by decide) (by decide)

/-- A status `"Error: " ++ x` is never `"success"`. -/
theorem error_status_ne (x : String) : "Error: " ++ x ≠ "success" :=
  ne_success_of_head "Error: " x 'E' "rror: ".data (by decide) (by decide)

/-- A status `"not_found_in_places:" ++ x` is never `"success"`. -/
theorem not_found_status_ne (x : String) :
    "not_found_in_places:" ++ x ≠ "success" :=
  ne_success_of_head "not_found_in_places:" x 'n' "ot_found_in_places:".data
    (by decide) (by decide)

/-- The record of `geocode_fallback`: a non-success status always carries absent
coordinates; and when the OK responses of the geocode endpoint are
well-formed, a success status carries both coordinates. -/
theorem geocode_fallback_coords (s : Session) (q : String) (st : St) :
    ((geocode_fallback q s st).1.status ≠ "success" →
      (geocode_fallback q s st).1.latitude = none ∧
      (geocode_fallback q s st).1.longitude = none) ∧
    ((∀ data, s.geocode q = Except.ok data → data.status = some "OK" →
        ∀ r, data.results.head? = some r →
          ∃ loc, r.geometry_location = some loc ∧ loc.lat ≠ none ∧ loc.lng ≠ none) →
      (geocode_fallback q s st).1.status = "success" →
      (geocode_fallback q s st).1.latitude ≠ none ∧
      (geocode_fallback q s st).1.longitude ≠ none) := by
  cases hg : s.geocode q with
  | error e =>
    simp only [geocode_fallback, hg]
    exact ⟨fun _ => ⟨rfl, rfl⟩, fun _ habs => absurd habs (exception_status_ne e)⟩
  | ok data =>
    simp only [geocode_fallback, hg]
    by_cases hok : data.status = some "OK" ∧ data.results ≠ []
    · rw [if_pos hok]
      cases hh : data.results.head? with
      | none =>
        exact ⟨fun _ => ⟨rfl, rfl⟩, fun _ habs => absurd habs (error_status_ne _)⟩
      | some r =>
        dsimp only
        cases hgl : r.geometry_location with
        | none =>
          exact ⟨fun _ => ⟨rfl, rfl⟩, fun _ habs => absurd habs (exception_status_ne _)⟩
        | some loc =>
          refine ⟨fun hns => absurd rfl hns, fun hwf _ => ?_⟩
          obtain ⟨loc2, hloc2, hla, hlo⟩ := hwf data rfl hok.1 r hh
          rw [hgl] at hloc2
          simp only [Option.some.injEq] at hloc2
          subst hloc2
          exact ⟨hla, hlo⟩
    · rw [if_neg hok]
      exact ⟨fun _ => ⟨rfl, rfl⟩, fun _ habs => absurd habs (error_status_ne _)⟩

/-- When the OK responses of the details endpoint are well-formed, every
`some` record `place_details` returns has status `"success"` and both
coordinates present. -/
theorem place_details_success_coords (s : Session)
    (hwf : ∀ pid data, s.details pid = Except.ok data → data.status = some "OK" →
      ∃ res, data.result = some res ∧ ∃ loc, res.geometry_location = some loc ∧
        loc.lat ≠ none ∧ loc.lng ≠ none)
    (pid : String) (st : St) (d : ResolutionResult) (st' : St)
    (h : place_details pid s st = Outcome.ok (some d) st') :
    d.status = "success" ∧ d.latitude ≠ none ∧ d.longitude ≠ none := by
  cases hdet : s.details pid with
  | error e =>
    simp only [place_details, hdet] at h
    exact Outcome.noConfusion h
  | ok data =>
    simp only [place_details, hdet] at h
    by_cases hs : data.status = some "OK"
    · rw [if_pos hs] at h
      obtain ⟨res, hres, loc, hloc, hla, hlo⟩ := hwf pid data hdet hs
      rw [hres] at h
      dsimp only at h
      rw [hloc] at h
      dsimp only at h
      simp only [Outcome.ok.injEq, Option.some.injEq] at h
      obtain ⟨hd, -⟩ := h
      subst hd
      exact ⟨rfl, hla, hlo⟩
    · rw [if_neg hs] at h
      simp only [Outcome.ok.injEq, reduceCtorEq, false_and] at h

/-- Every `some` record `place_details` returns has status `"success"`
(unconditionally). -/
theorem place_details_some_success (pid : String) (s : Session) (st : St)
    (d : ResolutionResult) (st' : St)
    (h : place_details pid s st = Outcome.ok (some d) st') :
    d.status = "success" := by
  cases hdet : s.details pid with
  | error e =>
    simp only [place_details, hdet] at h
    exact Outcome.noConfusion h
  | ok data =>
    simp only [place_details, hdet] at h
    by_cases hs : data.status = some "OK"
    · rw [if_pos hs] at h
      cases hres : data.result with
      | none =>
        rw [hres] at h
        exact Outcome.noConfusion h
      | some res =>
        rw [hres] at h
        dsimp only at h
        cases hloc : res.geometry_location with
        | none =>
          rw [hloc] at h
          exact Outcome.noConfusion h
        | some loc =>
          rw [hloc] at h
          dsimp only at h
          simp only [Outcome.ok.injEq, Option.some.injEq] at h
          obtain ⟨hd, -⟩ := h
          subst hd
          rfl
    · rw [if_neg hs] at h
      simp only [Outcome.ok.injEq, reduceCtorEq, false_and] at h

/-! ## No-raise lemmas under a well-behaved transport -/

/-- If the details transport never raises and its OK bodies are complete,
`place_details` always returns. -/
theorem place_details_no_raise (s : Session) (hnr : DetailsNoRaise s)
    (pid : String) (st : St) :
    ∃ d st', place_details pid s st = Outcome.ok d st' := by
  obtain ⟨data, hdata, hwfd⟩ := hnr pid
  simp only [place_details, hdata]
  by_cases hs : data.status = some "OK"
  · rw [if_pos hs]
    obtain ⟨res, hres, loc, hloc⟩ := hwfd hs
    rw [hres]
    dsimp only
    rw [hloc]
    exact ⟨_, _, rfl⟩
  · rw [if_neg hs]
    exact ⟨_, _, rfl⟩

/-- If the text-search transport never raises, the text-search adapter always
returns. -/
theorem places_text_search_no_raise (s : Session) (htot : TextsearchTotal s)
    (q : String) (loc : Option String) (radius : Nat) (pt : Option String)
    (st : St) :
    ∃ v st', places_text_search_place_id q loc radius pt s st = Outcome.ok v st' := by
  obtain ⟨d, hd⟩ := htot
    { query := q,
      location := if pyTruthy loc then loc else none,
      radius := if pyTruthy loc then some radius else none,
      ptype := if pyTruthy pt then pt else none }
  simp only [places_text_search_place_id, hd]
  by_cases h : d.status = some "OK" ∧ d.results ≠ []
  · rw [if_pos h]
    cases d.results.head? with
    | none => exact ⟨_, _, rfl⟩
    | some r => exact ⟨_, _, rfl⟩
  · rw [if_neg h]
    exact ⟨_, _, rfl⟩

/-! ## C1 -/

/-- C1 counterexample: on a transport whose text-search call raises, the
claimed "never raises" fails — `resolve_attraction` itself raises: tier 1
catches the exception at the adapter boundary, but the text-search call is
not wrapped in try/except and the exception escapes to the caller. -/
theorem c1_counterexample :
    resolve_attraction (some "X") none sBad st0 =
      Outcome.raised "ConnectionError" c1st ∧
    (resolve_attraction (some "X") none sBad st0).isOk = false := by
  exact ⟨by decide, by decide⟩

/-- Helper for C1: `resolve_attraction` never raises when the text-search
transport returns a parsed response and the details transport returns parsed
responses whose OK bodies carry `result.geometry.location` (the two call
sites outside any try/except); the tier-1 find-place and geocoding-fallback
transports may raise freely — those adapters catch at the boundary. -/
theorem resolve_attraction_no_raise (an cn : Option String) (s : Session) (st : St)
    (htot : TextsearchTotal s) (hnr : DetailsNoRaise s) :
    (resolve_attraction an cn s st).isOk = true := by
  simp only [resolve_attraction]
  by_cases hskip : pyTruthy (clean_cell an) = false ∧ pyTruthy (clean_cell cn) = false
  · rw [if_pos hskip]
    rfl
  · rw [if_neg hskip]
    cases hfp : findplace_then_details (joinQuery (clean_cell an) (clean_cell cn)) s st with
    | mk r1 st1 =>
    dsimp only
    by_cases hacc : r1.status = "success" ∧ is_low_quality_address r1.formatted_address = false
    · rw [if_pos hacc]
      rfl
    · rw [if_neg hacc]
      cases hcl : city_location_step (clean_cell cn) s st1 with
      | mk cloc st2 =>
      dsimp only
      obtain ⟨v, st3, hv⟩ := places_text_search_no_raise s htot
        (joinQuery (clean_cell an) (clean_cell cn)) cloc CITY_TEXTSEARCH_RADIUS_M
        (some PLACES_TYPE) st2
      rw [hv]
      dsimp only
      have geocase : ∀ stX : St,
          (match geocode_fallback (joinQuery (clean_cell an) (clean_cell cn)) s stX with
           | (r2, st4) => Outcome.ok r2 st4).isOk = true := by
        intro stX
        cases geocode_fallback (joinQuery (clean_cell an) (clean_cell cn)) s stX
        rfl
      cases v with
      | none => exact geocase st3
      | some p =>
        dsimp only
        by_cases hp : (p != "") = true
        · rw [if_pos hp]
          obtain ⟨dopt, st4, hdq⟩ := place_details_no_raise s hnr p st3
          rw [hdq]
          dsimp only
          cases dopt with
          | none => exact geocase st4
          | some dd =>
            dsimp only
            by_cases hds : dd.status = "success"
            · rw [if_pos hds]
              split <;> rfl
            · rw [if_neg hds]
              exact geocase st4
        · rw [if_neg hp]
          exact geocase st3

/-- Helper for C1: find.py's `place_details` always returns when the details
transport never raises and its OK bodies are complete. -/
theorem find_place_details_no_raise (s : Session) (hnr : DetailsNoRaise s)
    (pid : String) (tr : Trace) :
    ∃ d tr2, Find.place_details pid s tr = Find.FOutcome.ok d tr2 := by
  obtain ⟨data, hdata, hwfd⟩ := hnr pid
  simp only [Find.place_details, hdata]
  by_cases hs : data.status = some "OK"
  · rw [if_pos hs]
    obtain ⟨res, hres, loc, hloc⟩ := hwfd hs
    rw [hres]
    dsimp only
    rw [hloc]
    exact ⟨_, _, rfl⟩
  · rw [if_neg hs]
    exact ⟨_, _, rfl⟩

/-- Helper for C1: find.py's text-search adapter always returns when the
text-search transport never raises. -/
theorem find_places_text_search_no_raise (s : Session) (htot : TextsearchTotal s)
    (q : String) (loc : Option String) (radius : Nat) (pt : Option String)
    (tr : Trace) :
    ∃ v tr2, Find.places_text_search_place_id q loc radius pt s tr =
      Find.FOutcome.ok v tr2 := by
  obtain ⟨d, hd⟩ := htot
    { query := q,
      location := if pyTruthy loc then loc else none,
      radius := if pyTruthy loc then some radius else none,
      ptype := if pyTruthy pt then pt else none }
  simp only [Find.places_text_search_place_id, hd]
  by_cases h : d.status = some "OK" ∧ d.results ≠ []
  · rw [if_pos h]
    cases d.results.head? with
    | none => exact ⟨_, _, rfl⟩
    | some r => exact ⟨_, _, rfl⟩
  · rw [if_neg h]
    exact ⟨_, _, rfl⟩

/-- Helper for C1: find.py's `get_venue_location` never raises under the same
proviso as `resolve_attraction` — its unprotected raise sites are the same
two calls (the text search at find.py line 143 and the tier-2 details fetch
at line 233). -/
theorem get_venue_location_no_raise (vn c : Option String) (s : Session)
    (tr : Trace) (htot : TextsearchTotal s) (hnr : DetailsNoRaise s) :
    (Find.get_venue_location vn c s tr).isOk = true := by
  simp only [Find.get_venue_location]
  by_cases hskip : pyTruthy (clean_cell vn) = false ∧ pyTruthy (clean_cell c) = false
  · rw [if_pos hskip]
    rfl
  · rw [if_neg hskip]
    cases hfp : Find.find_venue_with_places_findplace
        (joinQuery (clean_cell vn) (clean_cell c)) s tr with
    | mk r1 tr1 =>
    dsimp only
    by_cases hacc : r1.status = "success" ∧ is_low_quality_address r1.formatted_address = false
    · rw [if_pos hacc]
      rfl
    · rw [if_neg hacc]
      have geocase : ∀ (q2 : String) (trY : Trace),
          (match Find.geocode_venue q2 s trY with
           | (r2, tr2) => Find.FOutcome.ok r2 tr2).isOk = true := by
        intro q2 trY
        cases Find.geocode_venue q2 s trY
        rfl
      have hnotraised : ∀ (loc : Option String) (trZ : Trace) (e : Exc) (trW : Trace),
          Find.places_text_search_place_id (joinQuery (clean_cell vn) (clean_cell c))
            loc 50000 (some "tourist_attraction") s trZ =
            Find.FOutcome.raised e trW → False := by
        intro loc trZ e trW hx
        obtain ⟨v, tr2, hv⟩ := find_places_text_search_no_raise s htot
          (joinQuery (clean_cell vn) (clean_cell c)) loc 50000
          (some "tourist_attraction") trZ
        rw [hv] at hx
        exact Find.FOutcome.noConfusion hx
      split
      · rename_i e trX heq
        exact ((hnotraised _ _ _ _ heq).elim)
      · rename_i pid trX heq
        cases pid with
        | none => exact geocase _ _
        | some p =>
          dsimp only
          by_cases hp : (p != "") = true
          · rw [if_pos hp]
            obtain ⟨dopt, tr4, hdq⟩ := find_place_details_no_raise s hnr p trX
            rw [hdq]
            dsimp only
            cases dopt with
            | none => exact geocase _ _
            | some dd =>
              dsimp only
              by_cases h1 : dd.status = "success" ∧ is_low_quality_address dd.formatted_address = false
              · rw [if_pos h1]
                rfl
              · rw [if_neg h1]
                by_cases h2 : dd.status = "success"
                · rw [if_pos h2]
                  rfl
                · rw [if_neg h2]
                  exact geocase _ _
          · rw [if_neg hp]
            exact geocase _ _

/-- C1 amended: NEITHER resolver raises PROVIDED the text-search transport
returns a parsed response and the details transport returns parsed responses
whose OK bodies carry `result.geometry.location` — these are the only call
sites outside any try/except in both pipelines; the tier-1 find-place and
geocoding transports may raise freely, those adapters catch at the boundary
and convert the exception to a descriptive status string. -/
theorem c1_never_raises_amended (an cn : Option String) (s : Session)
    (st : St) (tr : Trace) (htot : TextsearchTotal s) (hnr : DetailsNoRaise s) :
    (resolve_attraction an cn s st).isOk = true ∧
    (Find.get_venue_location an cn s tr).isOk = true :=
  ⟨resolve_attraction_no_raise an cn s st htot hnr,
   get_venue_location_no_raise an cn s tr htot hnr⟩

/-- Witness for the amended C1 on a fully answering transport, for both
resolvers. -/
theorem c1_never_raises_amended_witness :
    (resolve_attraction (some "Rijksmuseum") none sGood st0).isOk = true ∧
    (Find.get_venue_location (some "Rijksmuseum") none sGood []).isOk = true :=
  c1_never_raises_amended (some "Rijksmuseum") none sGood st0 []
    (fun _ => ⟨{ status := some "OK", results := [{ place_id := some "P1" }] }, rfl⟩)
    (fun _ => ⟨{ status := some "OK", result := some c3res }, rfl,
      fun _ => ⟨c3res, rfl, amsLoc, rfl⟩⟩)

/-! ## C2 -/

/-- When the OK responses of the details endpoint are well-formed, a tier-1
result reported `"success"` carries both coordinates. -/
theorem findplace_success_coords (s : Session)
    (hwf : ∀ pid data, s.details pid = Except.ok data → data.status = some "OK" →
      ∃ res, data.result = some res ∧ ∃ loc, res.geometry_location = some loc ∧
        loc.lat ≠ none ∧ loc.lng ≠ none)
    (q : String) (st : St) (r1 : ResolutionResult) (st1 : St)
    (h : findplace_then_details q s st = (r1, st1))
    (hs : r1.status = "success") :
    r1.latitude ≠ none ∧ r1.longitude ≠ none := by
  cases hfp : s.findplace q with
  | error e =>
    simp only [findplace_then_details, hfp] at h
    simp only [Prod.mk.injEq] at h
    obtain ⟨h1, -⟩ := h
    subst h1
    exact absurd hs (exception_status_ne e)
  | ok data =>
    simp only [findplace_then_details, hfp] at h
    by_cases hc : data.status = some "OK" ∧ data.candidates ≠ []
    · rw [if_pos hc] at h
      cases hcand : data.candidates.head? with
      | none =>
        rw [hcand] at h
        dsimp only at h
        simp only [Prod.mk.injEq] at h
        obtain ⟨h1, -⟩ := h
        subst h1
        exact absurd hs (not_found_status_ne _)
      | some cand =>
        rw [hcand] at h
        dsimp only at h
        cases hcp : cand.place_id with
        | none =>
          rw [hcp] at h
          dsimp only at h
          simp only [Prod.mk.injEq] at h
          obtain ⟨h1, -⟩ := h
          subst h1
          exact absurd hs (exception_status_ne _)
        | some pid =>
          rw [hcp] at h
          dsimp only at h
          cases hpd : place_details pid s
              { cache := st.cache, trace := CallEv.findplace q :: st.trace } with
          | raised e2 st2 =>
            rw [hpd] at h
            dsimp only at h
            simp only [Prod.mk.injEq] at h
            obtain ⟨h1, -⟩ := h
            subst h1
            exact absurd hs (exception_status_ne e2)
          | ok dopt st2 =>
            rw [hpd] at h
            cases dopt with
            | none =>
              simp only [Prod.mk.injEq] at h
              obtain ⟨h1, -⟩ := h
              subst h1
              exact absurd hs (not_found_status_ne _)
            | some details =>
              dsimp only at h
              have hds : details.status = "success" :=
                place_details_some_success pid s _ details st2 hpd
              rw [if_pos hds] at h
              simp only [Prod.mk.injEq] at h
              obtain ⟨h1, -⟩ := h
              subst h1
              exact (place_details_success_coords s hwf pid _ details st2 hpd).2
    · rw [if_neg hc] at h
      simp only [Prod.mk.injEq] at h
      obtain ⟨h1, -⟩ := h
      subst h1
      exact absurd hs (not_found_status_ne _)

/-- C2 counterexample: an upstream-OK details response that omits `lat`/`lng`
(read via `loc.get(...)`) yields a record with `status = "success"` and BOTH
coordinates absent, refuting "success implies latitude and longitude are
present". -/
theorem c2_counterexample :
    place_details "p" sC2 st0 =
      Outcome.ok (some c2rec) { cache := [], trace := [CallEv.details "p"] } ∧
    c2rec.status = "success" ∧ c2rec.latitude = none ∧ c2rec.longitude = none := by
  exact ⟨by decide, by decide, by decide, by decide⟩

/-- C2 amended: any record `resolve_attraction` returns with a non-success
status has both coordinates absent (unconditionally); and when the provider's
OK responses are well-formed (carry numeric coordinates where the code reads
them), a success status implies both coordinates are present. -/
theorem c2_success_coords_amended (an cn : Option String) (s : Session)
    (st : St) (r : ResolutionResult) (st' : St)
    (h : resolve_attraction an cn s st = Outcome.ok r st') :
    (r.status ≠ "success" → r.latitude = none ∧ r.longitude = none) ∧
    (WFSession s → r.status = "success" →
      r.latitude ≠ none ∧ r.longitude ≠ none) := by
  simp only [resolve_attraction] at h
  by_cases hskip : pyTruthy (clean_cell an) = false ∧ pyTruthy (clean_cell cn) = false
  · rw [if_pos hskip] at h
    simp only [Outcome.ok.injEq] at h
    obtain ⟨h1, -⟩ := h
    subst h1
    exact ⟨fun _ => ⟨rfl, rfl⟩, fun _ habs => absurd habs (by decide)⟩
  · rw [if_neg hskip] at h
    have geocase : ∀ stX : St,
        (match geocode_fallback (joinQuery (clean_cell an) (clean_cell cn)) s stX with
         | (r2, st4) => Outcome.ok r2 st4) = Outcome.ok r st' →
        (r.status ≠ "success" → r.latitude = none ∧ r.longitude = none) ∧
        (WFSession s → r.status = "success" →
          r.latitude ≠ none ∧ r.longitude ≠ none) := by
      intro stX hX
      cases hgf : geocode_fallback (joinQuery (clean_cell an) (clean_cell cn)) s stX with
      | mk r2 st4 =>
        rw [hgf] at hX
        dsimp only at hX
        simp only [Outcome.ok.injEq] at hX
        obtain ⟨h1, -⟩ := hX
        subst h1
        have hco := geocode_fallback_coords s (joinQuery (clean_cell an) (clean_cell cn)) stX
        rw [hgf] at hco
        exact ⟨hco.1,
          fun hwf => hco.2 (fun data hdata hok r3 hr3 => hwf.2 _ data hdata hok r3 hr3)⟩
    cases hfp : findplace_then_details (joinQuery (clean_cell an) (clean_cell cn)) s st with
    | mk r1 st1 =>
    rw [hfp] at h
    dsimp only at h
    by_cases hacc : r1.status = "success" ∧ is_low_quality_address r1.formatted_address = false
    · rw [if_pos hacc] at h
      simp only [Outcome.ok.injEq] at h
      obtain ⟨h1, -⟩ := h
      subst h1
      exact ⟨fun hns => absurd hacc.1 hns,
        fun hwf _ => findplace_success_coords s hwf.1 _ st r1 st1 hfp hacc.1⟩
    · rw [if_neg hacc] at h
      cases hcl : city_location_step (clean_cell cn) s st1 with
      | mk cloc st2 =>
      rw [hcl] at h
      dsimp only at h
      cases hts2 : places_text_search_place_id (joinQuery (clean_cell an) (clean_cell cn))
          cloc CITY_TEXTSEARCH_RADIUS_M (some PLACES_TYPE) s st2 with
      | raised e st3 =>
        rw [hts2] at h
        exact Outcome.noConfusion h
      | ok pid st3 =>
        rw [hts2] at h
        dsimp only at h
        cases pid with
        | none => exact geocase st3 h
        | some p =>
          dsimp only at h
          by_cases hp : (p != "") = true
          · rw [if_pos hp] at h
            cases hpd : place_details p s st3 with
            | raised e st4 =>
              rw [hpd] at h
              exact Outcome.noConfusion h
            | ok dopt st4 =>
              rw [hpd] at h
              dsimp only at h
              cases dopt with
              | none => exact geocase st4 h
              | some dd =>
                dsimp only at h
                by_cases hds : dd.status = "success"
                · rw [if_pos hds] at h
                  by_cases hlq : is_low_quality_address dd.formatted_address = true
                  · rw [if_pos hlq] at h
                    simp only [Outcome.ok.injEq] at h
                    obtain ⟨h1, -⟩ := h
                    subst h1
                    exact ⟨fun hns => absurd hds hns,
                      fun hwf _ => (place_details_success_coords s hwf.1 p st3 dd st4 hpd).2⟩
                  · rw [if_neg hlq] at h
                    simp only [Outcome.ok.injEq] at h
                    obtain ⟨h1, -⟩ := h
                    subst h1
                    exact ⟨fun hns => absurd hds hns,
                      fun hwf _ => (place_details_success_coords s hwf.1 p st3 dd st4 hpd).2⟩
                · rw [if_neg hds] at h
                  exact geocase st4 h
          · rw [if_neg hp] at h
            exact geocase st3 h

/-- Witness for the amended C2 at a concrete tier-1 success. -/
theorem c2_success_coords_amended_witness :
    (goodRec.status ≠ "success" → goodRec.latitude = none ∧ goodRec.longitude = none) ∧
    (WFSession sGood → goodRec.status = "success" →
      goodRec.latitude ≠ none ∧ goodRec.longitude ≠ none) :=
  c2_success_coords_amended (some "Rijksmuseum") none sGood st0 goodRec gst1 (by decide)

/-! ## C3 -/

/-- The adapter `geocode_fallback` never modifies the city cache. -/
theorem geocode_fallback_cache (q : String) (s : Session) (st : St) :
    (geocode_fallback q s st).2.cache = st.cache := by
  unfold geocode_fallback
  repeat' split
  all_goals rfl

/-- C3 amended (the caching behaviour, which holds for geocode_json.py's
`get_city_latlng` threading the shared `city_cache`): a successful centroid
lookup is memoized, so repeating it returns the same pair with the state
untouched (no further geocoding call — the trace is unchanged); and a failed
lookup leaves the cache unchanged (no negative caching), so a later lookup
retries.  find.py's `get_venue_location` has no such cache (see the
counterexample). -/
theorem c3_centroid_cache_amended (city : String) (s : Session) (st : St) :
    (∀ v st1, get_city_latlng city s st = (some v, st1) →
      get_city_latlng city s st1 = (some v, st1)) ∧
    (∀ st1, get_city_latlng city s st = (none, st1) → st1.cache = st.cache) := by
  have hgc := geocode_fallback_cache city s st
  constructor
  · intro v st1 h
    unfold get_city_latlng at h
    cases hlk : st.cache.lookup city with
    | some w =>
      rw [hlk] at h
      simp only [Prod.mk.injEq, Option.some.injEq] at h
      obtain ⟨hv, hst⟩ := h
      subst hv
      subst hst
      unfold get_city_latlng
      rw [hlk]
    | none =>
      rw [hlk] at h
      rcases hgf : geocode_fallback city s st with ⟨r, st2⟩
      rw [hgf] at h hgc
      dsimp only at h hgc
      by_cases hrs : r.status = "success"
      · rw [if_pos hrs] at h
        cases hla : r.latitude with
        | none =>
          rw [hla] at h
          simp only [Prod.mk.injEq, reduceCtorEq, false_and] at h
        | some la =>
          rw [hla] at h
          cases hlo : r.longitude with
          | none =>
            rw [hlo] at h
            simp only [Prod.mk.injEq, reduceCtorEq, false_and] at h
          | some lo =>
            rw [hlo] at h
            simp only [Prod.mk.injEq, Option.some.injEq] at h
            obtain ⟨hv, hst⟩ := h
            subst hv
            subst hst
            unfold get_city_latlng
            simp [List.lookup]
      · rw [if_neg hrs] at h
        simp only [Prod.mk.injEq, reduceCtorEq, false_and] at h
  · intro st1 h
    unfold get_city_latlng at h
    cases hlk : st.cache.lookup city with
    | some w =>
      rw [hlk] at h
      simp only [Prod.mk.injEq, reduceCtorEq, false_and] at h
    | none =>
      rw [hlk] at h
      rcases hgf : geocode_fallback city s st with ⟨r, st2⟩
      rw [hgf] at h hgc
      dsimp only at h hgc
      by_cases hrs : r.status = "success"
      · rw [if_pos hrs] at h
        cases hla : r.latitude with
        | none =>
          rw [hla] at h
          simp only [Prod.mk.injEq] at h
          obtain ⟨-, hst⟩ := h
          subst hst
          exact hgc
        | some la =>
          rw [hla] at h
          cases hlo : r.longitude with
          | none =>
            rw [hlo] at h
            simp only [Prod.mk.injEq] at h
            obtain ⟨-, hst⟩ := h
            subst hst
            exact hgc
          | some lo =>
            rw [hlo] at h
            simp only [Prod.mk.injEq, reduceCtorEq, false_and] at h
      · rw [if_neg hrs] at h
        simp only [Prod.mk.injEq] at h
        obtain ⟨-, hst⟩ := h
        subst hst
        exact hgc

/-- Witness for the amended C3: under `sC3`, after one successful lookup for
`"Amsterdam"` the repeat lookup is served from the cache with the state (and
hence the call trace) unchanged. -/
theorem c3_centroid_cache_amended_witness :
    get_city_latlng "Amsterdam" sC3 c3st1 = (some (52, 4), c3st1) :=
  (c3_centroid_cache_amended "Amsterdam" sC3 st0).1 (52, 4) c3st1 (by decide)

/-- C3 counterexample: find.py's `get_venue_location` (also named by the
claim) has NO city cache — two consecutive resolutions with the same city
`"Amsterdam"`, each reaching tier 2, perform TWO geocoding calls for that
city's centroid, not at most one. -/
theorem c3_counterexample :
    Find.get_venue_location (some "Rijksmuseum") (some "Amsterdam") sC3 [] =
      Find.FOutcome.ok c3result c3tr1 ∧
    Find.get_venue_location (some "Rijksmuseum") (some "Amsterdam") sC3 c3tr1 =
      Find.FOutcome.ok c3result (c3tr1 ++ c3tr1) ∧
    geocodeCallsFor "Amsterdam" (c3tr1 ++ c3tr1) = 2 := by
  exact ⟨by decide, by decide, by decide⟩
